import Mathlib

/-!
# Verification of the wakadoctor configuration validator

Shallow embedding of `src/main.rs` of the wakadoctor repository: a linear
validation pipeline over a wakatime configuration file.  Strings are modelled
as Lean `String`s (whose `data` field is the list of characters; wakadoctor
only ever compares ASCII strings, where Rust's byte-wise operations and
character-wise operations agree).  Each stage of `main` is embedded as a
function returning the list of status lines it prints together with its
outcome; `return` in the Rust source corresponds to a `none` / `false`
outcome that the driver `validate` propagates by stopping.
-/

namespace Wakadoctor

/-- The resolved endpoint URL, reduced to the three components `main` reads:
`url.scheme()`, `url.host_str()` (`none` models Rust's `None`) and
`url.path()`. -/
structure Url where
  scheme : String
  hostStr : Option String
  path : String
deriving DecidableEq, Repr

/-- `enum WakaHost` from `main.rs` (lines 50–55). -/
inductive WakaHost where
  | Hackatime
  | OldHackatime
  | Wakatime
  | Custom
deriving DecidableEq, Repr

/-- `impl Display for WakaHost` (lines 57–64): the name printed for a host
variant. -/
def displayWakaHost : WakaHost → String
  | .Hackatime => "Hackatime"
  | .OldHackatime => "Hackatime"
  | .Wakatime => "Wakatime"
  | .Custom => "Wakatime"

/-- The three command-line flags of `struct Args` that the validation logic
reads (the config-file location is consumed before the embedded part). -/
structure Args where
  noWarnDefaultWaka : Bool
  customServer : Bool
  offline : Bool
deriving DecidableEq, Repr

/-! ## The `uuid` crate's `Uuid::parse_str`

`main.rs` validates keys with `uuid::Uuid::parse_str`, i.e. the uuid crate's
`try_parse_ascii` (`parser.rs`): the input is dispatched on its length —
32 bytes are parsed as an undashed hex string (`parse_simple`), 36 bytes as
the dashed 8-4-4-4-12 form (`parse_hyphenated`), 38 bytes of the shape
`{` + 36 bytes + `}` and 45 bytes of the shape `urn:uuid:` + 36 bytes have
their inner 36 bytes parsed as the dashed form; anything else is an error.
A hex digit is `0`–`9`, `a`–`f` or `A`–`F` (the crate's `HEX_TABLE`). -/

/-- A character the uuid crate's `HEX_TABLE` accepts as a hex digit. -/
def isHexAsciiDigit (c : Char) : Bool :=
  ('0' ≤ c && c ≤ '9') || ('a' ≤ c && c ≤ 'f') || ('A' ≤ c && c ≤ 'F')

/-- `parse_simple` of the uuid crate: 32 hex digits, no separators. -/
def parseSimpleOk (l : List Char) : Bool :=
  l.length = 32 && l.all isHexAsciiDigit

/-- `parse_hyphenated` of the uuid crate: 36 characters, `-` at offsets
8, 13, 18 and 23, hex digits at the remaining offsets (the runs
`[0,8)`, `[9,13)`, `[14,18)`, `[19,23)`, `[24,36)`). -/
def parseHyphenatedOk (l : List Char) : Bool :=
  l.length = 36 &&
  l.getD 8 'x' = '-' && l.getD 13 'x' = '-' &&
  l.getD 18 'x' = '-' && l.getD 23 'x' = '-' &&
  (l.take 8).all isHexAsciiDigit &&
  ((l.drop 9).take 4).all isHexAsciiDigit &&
  ((l.drop 14).take 4).all isHexAsciiDigit &&
  ((l.drop 19).take 4).all isHexAsciiDigit &&
  (l.drop 24).all isHexAsciiDigit

/-- `uuid::Uuid::parse_str`'s accept set (`try_parse_ascii`'s length
dispatch). -/
def uuidParseOk (s : String) : Bool :=
  let l := s.data
  if l.length = 32 then parseSimpleOk l
  else if l.length = 36 then parseHyphenatedOk l
  else if l.length = 38 && l.getD 0 'x' = '{' && l.getD 37 'x' = '}' then
    parseHyphenatedOk ((l.drop 1).take 36)
  else if l.length = 45 && l.take 9 = "urn:uuid:".data then
    parseHyphenatedOk (l.drop 9)
  else false

/-- Rust's `str::replacen(pat, rep, 1)` for a non-empty pattern: replace the
first occurrence of `pat` by `rep`, leave everything else unchanged. -/
def replaceFirst (pat rep : List Char) : List Char → List Char
  | [] => []
  | c :: rest =>
    if pat.isPrefixOf (c :: rest) then rep ++ (c :: rest).drop pat.length
    else c :: replaceFirst pat rep rest

/-! ## Endpoint resolution (`main.rs` lines 98–116) -/

/-- The components `url::Url::parse` yields on the literal default
`"https://api.wakatime.com/api/v1"` (`main.rs` line 102). -/
def defaultUrl : Url :=
  { scheme := "https", hostStr := some "api.wakatime.com", path := "/api/v1" }

/-- Endpoint resolution (lines 98–116): an empty `api_url` warns and uses the
default; otherwise the field is parsed by `url::Url::parse`, modelled by the
oracle `parseUrl` (`none` = parse error; the parser's error text in the
failure line is elided). -/
def resolveUrl (parseUrl : String → Option Url) (apiUrl : String) :
    List String × Option Url :=
  if apiUrl = "" then
    (["⚠️ - Wakatime API URL is not specified - assuming default (https://api.wakatime.com/api/v1)"],
     some defaultUrl)
  else
    match parseUrl apiUrl with
    | some v => (["✅ - Wakatime API URL is valid URL"], some v)
    | none => (["❌ - Wakatime API URL is not valid URL (failed parsing with error)"], none)

/-! ## Host classification (`main.rs` lines 118–153) -/

/-- Host classification: `url.host_str().unwrap_or_else(|| { println; "" })`
followed by the `match` on the host string, arms in source order.  A `none`
host prints the null-host line and then falls into the `""` arm, which
returns (aborts) without a further line; `none` models Rust's `None` and the
outcome `none` models the `return`. -/
def classifyHost (args : Args) (hs : Option String) :
    List String × Option WakaHost :=
  let pre : List String :=
    match hs with
    | none => ["❌ - Wakatime API URL has null host"]
    | some _ => []
  let h := hs.getD ""
  if h = "hackatime.hackclub.com" then
    (pre ++ ["✅ - Wakatime API host is Hackatime host"], some .Hackatime)
  else if h = "waka.hackclub.com" then
    (pre ++ ["⚠️ - Wakatime API host is old Hackclub Wakatime host"], some .OldHackatime)
  else if h = "api.wakatime.com" then
    (pre ++
      [if args.noWarnDefaultWaka then
        "✅ - Wakatime API host is default Wakatime host"
       else
        "⚠️ - Wakatime API host is default Wakatime host (psst- disable this warning with --no-warn-default-waka)"],
     some .Wakatime)
  else if h = "" then
    (pre, none)
  else
    (pre ++
      [if args.customServer then
        "✅ - Wakatime API host is custom server host"
       else
        "⚠️ - Wakatime API host is custom server host or invalid host (psst- disable this warning with --custom-server)"],
     some .Custom)

/-! ## Path validation (`main.rs` lines 155–180) -/

/-- The `match host` block checking `url.path()`: `Hackatime` requires
`/api/hackatime/v1`, `Wakatime` requires `/api/v1`, the other two variants
check nothing.  `false` models the `return` on mismatch. -/
def pathCheck (host : WakaHost) (path : String) : List String × Bool :=
  match host with
  | .Hackatime =>
    if path ≠ "/api/hackatime/v1" then
      (["❌ - Hackatime API path should be \"/api/hackatime/v1\", not \"" ++ path ++ "\""], false)
    else
      (["✅ - Hackatime API path is correct."], true)
  | .OldHackatime => ([], true)
  | .Wakatime =>
    if path ≠ "/api/v1" then
      (["❌ - Wakatime API path should be \"/api/v1\", not \"" ++ path ++ "\""], false)
    else
      (["✅ - Wakatime API path is correct."], true)
  | .Custom => ([], true)

/-! ## Scheme validation (`main.rs` lines 182–198) -/

/-- The scheme check: anything other than `https` aborts, with a dedicated
line for `http` and a generic line naming any other scheme. -/
def schemeCheck (scheme : String) : List String × Bool :=
  if scheme ≠ "https" then
    (if scheme = "http" then
      (["❌ - Wakatime API URL is unsecured HTTP"], false)
     else
      (["❌ - Wakatime API URL has unknown scheme \"" ++ scheme ++ "\""], false))
  else
    (["✅ - Wakatime API URL is HTTPS"], true)

/-! ## API key validation (`main.rs` lines 200–228) -/

/-- The key check chain: empty key aborts for every variant; `Hackatime`
requires `Uuid::parse_str(key)` to succeed; `Wakatime` requires the
`waka_` prefix (Rust `starts_with`, i.e. prefix of the character list) and
`Uuid::parse_str(key.replacen("waka_", "", 1))` to succeed; the other two
variants check nothing. -/
def keyCheck (host : WakaHost) (apiKey : String) : List String × Bool :=
  if apiKey = "" then
    (["❌ - No API key in file"], false)
  else if host = .Hackatime then
    (if uuidParseOk apiKey then
      (["✅ - Hackatime API key is in valid format"], true)
     else
      (["❌ - Hackatime API key is NOT in valid format"], false))
  else if host = .Wakatime then
    (if "waka_".data.isPrefixOf apiKey.data then
      (if uuidParseOk ⟨replaceFirst "waka_".data [] apiKey.data⟩ then
        (["✅ - Wakatime API key is in valid format"], true)
       else
        (["❌ - Wakatime API key is NOT in valid format"], false))
     else
      (["❌ - Wakatime API key is NOT in valid format"], false))
  else
    ([], true)

/-! ## The validation pipeline -/

/-- The portion of `main` from host classification up to (and excluding) the
network probe, in source order: classify, path check, scheme check, key
check.  Returns the printed lines and `some host` when every check passed
(the state in which `main` goes on to the probe / final success line). -/
def validate (args : Args) (url : Url) (apiKey : String) :
    List String × Option WakaHost :=
  match classifyHost args url.hostStr with
  | (l1, none) => (l1, none)
  | (l1, some host) =>
    match pathCheck host url.path with
    | (l2, false) => (l1 ++ l2, none)
    | (l2, true) =>
      match schemeCheck url.scheme with
      | (l3, false) => (l1 ++ l2 ++ l3, none)
      | (l3, true) =>
        match keyCheck host apiKey with
        | (l4, false) => (l1 ++ l2 ++ l3 ++ l4, none)
        | (l4, true) => (l1 ++ l2 ++ l3 ++ l4, some host)

/-- The warning printed when `--offline` skips the probe (line 231). -/
def offlineLine : String :=
  "⚠️ - Not attempting to perform online heartbeat check (--offline passed)"

/-- The line printed when the probe's `send()` returns `Ok` (line 245). -/
def probeSuccessLine (host : WakaHost) : String :=
  "✅ - Got successful status code! " ++ displayWakaHost host ++ " is configured correctly."

/-- The final overall success line (line 265). -/
def finalSuccessLine (host : WakaHost) : String :=
  "✅ - " ++ displayWakaHost host ++ " is configured correctly!"

/-! ## The probe target: `url.join("users/current/heartbeats")`

`main.rs` line 234 resolves the relative reference `users/current/heartbeats`
against the resolved URL with the url crate's `Url::join`, which implements
WHATWG relative-reference resolution: for a relative path-only reference the
base's path is shortened by removing its last segment (everything after the
final `/`) and the reference is appended. -/

/-- Everything of `l` up to and including its final `/` (the WHATWG
"shorten a url's path" step; `[]` when `l` has no `/`, which does not occur
for the hierarchical-URL paths the url crate produces here). -/
def dropLastSegment (l : List Char) : List Char :=
  (l.reverse.dropWhile (fun c => c != '/')).reverse

/-- Merge of a base path with a relative path-only reference (no leading
`/`, no `?`/`#`), as `Url::join` performs it. -/
def mergeRelative (basePath rel : String) : String :=
  ⟨dropLastSegment basePath.data ++ rel.data⟩

/-- `url.join(rel)` for a relative path-only reference: scheme and host are
kept, the path is merged. -/
def joinRelative (u : Url) (rel : String) : Url :=
  { u with path := mergeRelative u.path rel }

/-- The URL the heartbeat probe POSTs to (line 234). -/
def probeTarget (u : Url) : Url :=
  joinRelative u "users/current/heartbeats"

/-! ## Config parsing (`main.rs` lines 27–46 and 77–96)

`serde_ini::from_str::<WakaConfig>` deserializes the INI text's
section/key-value structure.  An INI document is modelled post-lexing as its
list of sections, each a list of key-value pairs (the shape of any
syntactically valid INI file).  `WakaSettings` carries `#[serde(default)]`,
so every key inside the section is optional; `WakaConfig` does not, so the
`settings` field — the `[settings]` section — is required and its absence is
a deserialization error (serde's "missing field").  Unknown sections and
keys are ignored (serde's default). -/

/-- `struct WakaSettings` with its `#[serde(default)]` defaults. -/
structure WakaSettings where
  debug : Bool := false
  api_key : String := ""
  api_key_vault_cmd : String := ""
  api_url : String := ""
  hide_file_names : Bool := false
  hide_project_names : Bool := false
  hide_branch_names : Bool := false
  hide_dependencies : Bool := false
  hide_project_folder : Bool := false
deriving DecidableEq, Repr

/-- `struct WakaConfig`. -/
structure WakaConfig where
  settings : WakaSettings
deriving DecidableEq, Repr

/-- A parsed INI section: its key-value pairs in order. -/
abbrev IniSection := List (String × String)

/-- A parsed INI document: its sections in order. -/
abbrev IniDoc := List (String × IniSection)

/-- serde deserialization of `bool` from an INI value string (via
`str::parse::<bool>`): exactly `true` / `false`. -/
def parseIniBool (v : String) : Option Bool :=
  if v = "true" then some true else if v = "false" then some false else none

/-- A `bool` field of `WakaSettings`: absent keys default to `false`,
present keys must parse as a bool. -/
def boolField (kvs : IniSection) (name : String) : Option Bool :=
  match List.lookup name kvs with
  | none => some false
  | some v => parseIniBool v

/-- A `String` field of `WakaSettings`: absent keys default to `""`. -/
def strField (kvs : IniSection) (name : String) : String :=
  (List.lookup name kvs).getD ""

/-- Deserialization of `WakaSettings` from the `[settings]` section's
key-value pairs. -/
def deserializeWakaSettings (kvs : IniSection) : Option WakaSettings := do
  let debug ← boolField kvs "debug"
  let hide_file_names ← boolField kvs "hide_file_names"
  let hide_project_names ← boolField kvs "hide_project_names"
  let hide_branch_names ← boolField kvs "hide_branch_names"
  let hide_dependencies ← boolField kvs "hide_dependencies"
  let hide_project_folder ← boolField kvs "hide_project_folder"
  pure
    { debug := debug
      api_key := strField kvs "api_key"
      api_key_vault_cmd := strField kvs "api_key_vault_cmd"
      api_url := strField kvs "api_url"
      hide_file_names := hide_file_names
      hide_project_names := hide_project_names
      hide_branch_names := hide_branch_names
      hide_dependencies := hide_dependencies
      hide_project_folder := hide_project_folder }

/-- Deserialization of `WakaConfig` from an INI document: the `settings`
section must exist (serde "missing field" otherwise) and must deserialize. -/
def deserializeWakaConfig (doc : IniDoc) : Option WakaConfig :=
  match List.lookup "settings" doc with
  | none => none
  | some kvs => (deserializeWakaSettings kvs).map WakaConfig.mk

/-- The parse stage of `main` (lines 77–96, after the file was read): the
status line and the outcome of `serde_ini::from_str` (the serde error text
in the failure line is elided). -/
def parseConfigStage (doc : IniDoc) : List String × Option WakaConfig :=
  match deserializeWakaConfig doc with
  | some c => (["✅ - Successfully parsed Wakatime config"], some c)
  | none => (["❌ - Cannot parse Wakatime config with error"], none)

/-! ## The spec's UUID formats

The specification's words, as separate definitions to compare with the
parser embedded above.  `SpecCanonicalUuid` renders the glossary entry
"32 hex digits grouped with hyphens (8-4-4-4-12)"; the other three are the
additional shapes the uuid crate accepts. -/

/-- Spec's canonical UUID: 32 hex digits grouped `8-4-4-4-12` by hyphens. -/
def SpecCanonicalUuid (s : String) : Prop :=
  ∃ a b c d e : List Char,
    a.length = 8 ∧ b.length = 4 ∧ c.length = 4 ∧ d.length = 4 ∧ e.length = 12 ∧
    (a ++ b ++ c ++ d ++ e).all isHexAsciiDigit = true ∧
    s.data = a ++ '-' :: (b ++ '-' :: (c ++ '-' :: (d ++ '-' :: e)))

/-- An undashed UUID: 32 hex digits with no separators. -/
def SpecSimpleUuid (s : String) : Prop :=
  s.data.length = 32 ∧ s.data.all isHexAsciiDigit = true

/-- A braced UUID: a canonical UUID wrapped in curly braces. -/
def SpecBracedUuid (s : String) : Prop :=
  ∃ t : String, SpecCanonicalUuid t ∧ s.data = '{' :: (t.data ++ ['}'])

/-- A URN-form UUID: a canonical UUID after the literal `urn:uuid:`. -/
def SpecUrnUuid (s : String) : Prop :=
  ∃ t : String, SpecCanonicalUuid t ∧ s.data = "urn:uuid:".data ++ t.data

/-! ## Helper lemmas -/

theorem getD_append_length {α} (l₁ : List α) (c : α) (l₂ : List α) (d : α)
    {n : Nat} (h : l₁.length = n) : (l₁ ++ c :: l₂).getD n d = c := by
  subst h
  rw [List.getD_append_right _ _ _ _ (Nat.le_refl _), Nat.sub_self]
  rfl

/-- The decomposition the uuid crate's `parse_hyphenated` accepts. -/
theorem parseHyphenatedOk_iff (l : List Char) :
    parseHyphenatedOk l = true ↔
      ∃ a b c d e : List Char,
        a.length = 8 ∧ b.length = 4 ∧ c.length = 4 ∧ d.length = 4 ∧ e.length = 12 ∧
        (a ++ b ++ c ++ d ++ e).all isHexAsciiDigit = true ∧
        l = a ++ '-' :: (b ++ '-' :: (c ++ '-' :: (d ++ '-' :: e))) := by
  constructor
  · intro h
    simp only [parseHyphenatedOk, Bool.and_eq_true, decide_eq_true_eq, and_assoc] at h
    obtain ⟨h36, hg8, hg13, hg18, hg23, hx1, hx2, hx3, hx4, hx5⟩ := h
    have e8 : l[8] = '-' := by
      rw [← List.getD_eq_getElem l 'x' (by omega)]; exact hg8
    have e13 : l[13] = '-' := by
      rw [← List.getD_eq_getElem l 'x' (by omega)]; exact hg13
    have e18 : l[18] = '-' := by
      rw [← List.getD_eq_getElem l 'x' (by omega)]; exact hg18
    have e23 : l[23] = '-' := by
      rw [← List.getD_eq_getElem l 'x' (by omega)]; exact hg23
    have s8 : l.drop 8 = '-' :: l.drop 9 := by
      rw [List.drop_eq_getElem_cons (by omega), e8]
    have s9 : l.drop 9 = (l.drop 9).take 4 ++ '-' :: l.drop 14 := by
      conv_lhs => rw [← List.take_append_drop 4 (l.drop 9)]
      rw [List.drop_drop, show (9 + 4 : Nat) = 13 from rfl,
        List.drop_eq_getElem_cons (show 13 < l.length by omega), e13]
    have s14 : l.drop 14 = (l.drop 14).take 4 ++ '-' :: l.drop 19 := by
      conv_lhs => rw [← List.take_append_drop 4 (l.drop 14)]
      rw [List.drop_drop, show (14 + 4 : Nat) = 18 from rfl,
        List.drop_eq_getElem_cons (show 18 < l.length by omega), e18]
    have s19 : l.drop 19 = (l.drop 19).take 4 ++ '-' :: l.drop 24 := by
      conv_lhs => rw [← List.take_append_drop 4 (l.drop 19)]
      rw [List.drop_drop, show (19 + 4 : Nat) = 23 from rfl,
        List.drop_eq_getElem_cons (show 23 < l.length by omega), e23]
    refine ⟨l.take 8, (l.drop 9).take 4, (l.drop 14).take 4, (l.drop 19).take 4,
      l.drop 24, ?_, ?_, ?_, ?_, ?_, ?_, ?_⟩
    · simp [List.length_take, h36]
    · simp [List.length_take, List.length_drop, h36]
    · simp [List.length_take, List.length_drop, h36]
    · simp [List.length_take, List.length_drop, h36]
    · simp [List.length_drop, h36]
    · simp [List.all_append, hx1, hx2, hx3, hx4, hx5]
    · rw [← s19, ← s14, ← s9, ← s8, List.take_append_drop]
  · rintro ⟨a, b, c, d, e, ha, hb, hc, hd, he, hhex, rfl⟩
    simp only [List.all_append, Bool.and_eq_true] at hhex
    obtain ⟨⟨⟨⟨hxa, hxb⟩, hxc⟩, hxd⟩, hxe⟩ := hhex
    have g9 : a ++ '-' :: (b ++ '-' :: (c ++ '-' :: (d ++ '-' :: e)))
        = (a ++ ['-']) ++ (b ++ '-' :: (c ++ '-' :: (d ++ '-' :: e))) := by simp
    have d9 : (a ++ '-' :: (b ++ '-' :: (c ++ '-' :: (d ++ '-' :: e)))).drop 9
        = b ++ '-' :: (c ++ '-' :: (d ++ '-' :: e)) := by
      rw [g9]; exact List.drop_left' (by simp [ha])
    have d14 : (a ++ '-' :: (b ++ '-' :: (c ++ '-' :: (d ++ '-' :: e)))).drop 14
        = c ++ '-' :: (d ++ '-' :: e) := by
      rw [show (14 : Nat) = 9 + 5 from rfl, ← List.drop_drop, d9,
        show b ++ '-' :: (c ++ '-' :: (d ++ '-' :: e))
          = (b ++ ['-']) ++ (c ++ '-' :: (d ++ '-' :: e)) by simp]
      exact List.drop_left' (by simp [hb])
    have d19 : (a ++ '-' :: (b ++ '-' :: (c ++ '-' :: (d ++ '-' :: e)))).drop 19
        = d ++ '-' :: e := by
      rw [show (19 : Nat) = 14 + 5 from rfl, ← List.drop_drop, d14,
        show c ++ '-' :: (d ++ '-' :: e) = (c ++ ['-']) ++ (d ++ '-' :: e) by simp]
      exact List.drop_left' (by simp [hc])
    have d24 : (a ++ '-' :: (b ++ '-' :: (c ++ '-' :: (d ++ '-' :: e)))).drop 24
        = e := by
      rw [show (24 : Nat) = 19 + 5 from rfl, ← List.drop_drop, d19,
        show d ++ '-' :: e = (d ++ ['-']) ++ e by simp]
      exact List.drop_left' (by simp [hd])
    simp only [parseHyphenatedOk, Bool.and_eq_true, decide_eq_true_eq, and_assoc]
    refine ⟨?_, ?_, ?_, ?_, ?_, ?_, ?_, ?_, ?_, ?_⟩
    · simp [List.length_append, ha, hb, hc, hd, he]
    · exact getD_append_length a '-' _ 'x' ha
    · rw [show a ++ '-' :: (b ++ '-' :: (c ++ '-' :: (d ++ '-' :: e)))
          = (a ++ '-' :: b) ++ '-' :: (c ++ '-' :: (d ++ '-' :: e)) by simp]
      exact getD_append_length _ '-' _ 'x' (by simp [ha, hb])
    · rw [show a ++ '-' :: (b ++ '-' :: (c ++ '-' :: (d ++ '-' :: e)))
          = (a ++ '-' :: (b ++ '-' :: c)) ++ '-' :: (d ++ '-' :: e) by simp]
      exact getD_append_length _ '-' _ 'x' (by simp [ha, hb, hc])
    · rw [show a ++ '-' :: (b ++ '-' :: (c ++ '-' :: (d ++ '-' :: e)))
          = (a ++ '-' :: (b ++ '-' :: (c ++ '-' :: d))) ++ '-' :: e by simp]
      exact getD_append_length _ '-' _ 'x' (by simp [ha, hb, hc, hd])
    · rw [List.take_left' ha]; exact hxa
    · rw [d9, List.take_left' hb]; exact hxb
    · rw [d14, List.take_left' hc]; exact hxc
    · rw [d19, List.take_left' hd]; exact hxd
    · rw [d24]; exact hxe

/-- The uuid crate's accept set is exactly the four spec-level formats. -/
theorem uuidParseOk_iff (s : String) :
    uuidParseOk s = true ↔
      SpecSimpleUuid s ∨ SpecCanonicalUuid s ∨ SpecBracedUuid s ∨ SpecUrnUuid s := by
  constructor
  · intro h
    simp only [uuidParseOk] at h
    split at h
    · rename_i h32
      left
      simp only [parseSimpleOk, Bool.and_eq_true, decide_eq_true_eq] at h
      exact ⟨h32, h.2⟩
    · split at h
      · right; left
        exact (parseHyphenatedOk_iff s.data).mp h
      · split at h
        · rename_i hcond
          simp only [Bool.and_eq_true, decide_eq_true_eq, and_assoc] at hcond
          obtain ⟨h38, h0, h37⟩ := hcond
          right; right; left
          refine ⟨⟨(s.data.drop 1).take 36⟩, (parseHyphenatedOk_iff _).mp h, ?_⟩
          have e0 : s.data[0] = '{' := by
            rw [← List.getD_eq_getElem s.data 'x' (by omega)]; exact h0
          have e37 : s.data[37] = '}' := by
            rw [← List.getD_eq_getElem s.data 'x' (by omega)]; exact h37
          have s37 : s.data.drop 37 = ['}'] := by
            rw [List.drop_eq_getElem_cons (by omega), e37,
              List.drop_eq_nil_of_le (by omega)]
          have s1 : s.data.drop 1 = (s.data.drop 1).take 36 ++ ['}'] := by
            conv_lhs => rw [← List.take_append_drop 36 (s.data.drop 1)]
            rw [List.drop_drop, show (1 + 36 : Nat) = 37 from rfl, s37]
          conv_lhs => rw [show s.data = s.data.drop 0 from (List.drop_zero _).symm,
            List.drop_eq_getElem_cons (by omega), e0, s1]
        · split at h
          · rename_i hcond
            simp only [Bool.and_eq_true, decide_eq_true_eq, and_assoc] at hcond
            obtain ⟨h45, hpre⟩ := hcond
            right; right; right
            refine ⟨⟨s.data.drop 9⟩, (parseHyphenatedOk_iff _).mp h, ?_⟩
            conv_lhs => rw [← List.take_append_drop 9 s.data, hpre]
          · exact absurd h (by simp)
  · intro h
    rcases h with hs | hc | hb | hu
    · obtain ⟨h32, hall⟩ := hs
      simp [uuidParseOk, parseSimpleOk, h32, hall]
    · have hlen : s.data.length = 36 := by
        obtain ⟨a, b, c, d, e, ha, hb, hc, hd, he, _, hdata⟩ := hc
        simp [hdata, List.length_append, ha, hb, hc, hd, he]
      have hhyph : parseHyphenatedOk s.data = true := (parseHyphenatedOk_iff _).mpr hc
      simp [uuidParseOk, hlen, hhyph]
    · obtain ⟨t, hct, hdata⟩ := hb
      have hlen_t : t.data.length = 36 := by
        obtain ⟨a, b, c, d, e, ha, hb', hc', hd, he, _, hdt⟩ := hct
        simp [hdt, List.length_append, ha, hb', hc', hd, he]
      have hlen : s.data.length = 38 := by
        simp [hdata, List.length_append, hlen_t]
      have hg0 : s.data[0] = '{' := by
        rw [← List.getD_eq_getElem s.data 'x' (by omega), hdata]; rfl
      have hg37 : s.data[37] = '}' := by
        rw [← List.getD_eq_getElem s.data 'x' (by omega), hdata,
          show ('{' :: (t.data ++ ['}'])) = ('{' :: t.data) ++ ['}'] by simp]
        exact getD_append_length _ '}' _ 'x' (by simp [hlen_t])
      have hmid : (s.data.drop 1).take 36 = t.data := by
        rw [hdata, List.drop_succ_cons, List.drop_zero, List.take_left' hlen_t]
      have hhyph : parseHyphenatedOk ((s.data.drop 1).take 36) = true := by
        rw [hmid]; exact (parseHyphenatedOk_iff _).mpr hct
      have hhyph' : parseHyphenatedOk (s.data.tail.take 36) = true := by
        rw [← List.drop_one]; exact hhyph
      simp [uuidParseOk, hlen, hg0, hg37, hhyph, hhyph']
    · obtain ⟨t, hct, hdata⟩ := hu
      have hlen_t : t.data.length = 36 := by
        obtain ⟨a, b, c, d, e, ha, hb', hc', hd, he, _, hdt⟩ := hct
        simp [hdt, List.length_append, ha, hb', hc', hd, he]
      have hlen : s.data.length = 45 := by
        simp [hdata, List.length_append, hlen_t]
      have hpre : s.data.take 9 = "urn:uuid:".data := by
        rw [hdata]; exact List.take_left' rfl
      have hrest : s.data.drop 9 = t.data := by
        rw [hdata]; exact List.drop_left' rfl
      have hhyph : parseHyphenatedOk (s.data.drop 9) = true := by
        rw [hrest]; exact (parseHyphenatedOk_iff _).mpr hct
      simp [uuidParseOk, hlen, hpre, hhyph]

/-- When the key starts with `waka_`, `replacen("waka_", "", 1)` strips
exactly that prefix, i.e. the first five characters. -/
theorem replaceFirst_waka (k : String) (h : "waka_".data.isPrefixOf k.data = true) :
    replaceFirst "waka_".data [] k.data = k.data.drop 5 := by
  obtain ⟨l⟩ := k
  cases l with
  | nil => simp [List.isPrefixOf] at h
  | cons c rest => simp only [replaceFirst, if_pos h, List.nil_append]; rfl

theorem dropWhile_append_of_all {α} (p : α → Bool) (l₁ l₂ : List α)
    (h : ∀ x ∈ l₁, p x = true) : (l₁ ++ l₂).dropWhile p = l₂.dropWhile p := by
  induction l₁ with
  | nil => rfl
  | cons a t ih =>
    simp only [List.cons_append, List.dropWhile_cons, h a (by simp)]
    exact ih (fun x hx => h x (by simp [hx]))

/-- `Url::join` with a slash-free relative reference replaces everything
after the base path's last `/`. -/
theorem mergeRelative_replaces_last_segment (q seg rel : List Char)
    (h : seg.all (fun c => c != '/') = true) :
    mergeRelative ⟨q ++ '/' :: seg⟩ ⟨rel⟩ = ⟨q ++ '/' :: rel⟩ := by
  have hseg : ∀ x ∈ seg.reverse, (x != '/') = true := by
    intro x hx
    exact List.all_eq_true.mp h x (List.mem_reverse.mp hx)
  show String.mk (dropLastSegment (q ++ '/' :: seg) ++ rel) = String.mk (q ++ '/' :: rel)
  congr 1
  unfold dropLastSegment
  rw [List.reverse_append, List.reverse_cons,
    show (seg.reverse ++ ['/']) ++ q.reverse = seg.reverse ++ '/' :: q.reverse by simp,
    dropWhile_append_of_all _ _ _ hseg,
    show List.dropWhile (fun c => c != '/') ('/' :: q.reverse) = '/' :: q.reverse by
      simp [List.dropWhile_cons]]
  simp

/-- Reduction of `validate` when host classification aborts. -/
theorem validate_of_classify_none {args : Args} {url : Url} {apiKey : String}
    {l1 : List String} (h1 : classifyHost args url.hostStr = (l1, none)) :
    validate args url apiKey = (l1, none) := by
  simp only [validate, h1]

/-- Reduction of `validate` when the path check fails. -/
theorem validate_of_path_fail {args : Args} {url : Url} {apiKey : String}
    {l1 l2 : List String} {host : WakaHost}
    (h1 : classifyHost args url.hostStr = (l1, some host))
    (h2 : pathCheck host url.path = (l2, false)) :
    validate args url apiKey = (l1 ++ l2, none) := by
  simp only [validate, h1, h2]

/-- Reduction of `validate` when the scheme check fails. -/
theorem validate_of_scheme_fail {args : Args} {url : Url} {apiKey : String}
    {l1 l2 l3 : List String} {host : WakaHost}
    (h1 : classifyHost args url.hostStr = (l1, some host))
    (h2 : pathCheck host url.path = (l2, true))
    (h3 : schemeCheck url.scheme = (l3, false)) :
    validate args url apiKey = (l1 ++ l2 ++ l3, none) := by
  simp only [validate, h1, h2, h3]

/-! ## Claims -/

/-- C1 (amended): a resolved URL with scheme `http` never validates; the
insecure-scheme line is the failure message exactly when host
classification and path validation pass (the scheme check runs after
them), while an http URL failing an earlier check fails with that check's
message instead. -/
theorem c1_http_always_rejected (args : Args) (url : Url) (apiKey : String)
    (hscheme : url.scheme = "http") :
    (validate args url apiKey).2 = none ∧
    (∀ (l1 : List String) (host : WakaHost) (l2 : List String),
      classifyHost args url.hostStr = (l1, some host) →
      pathCheck host url.path = (l2, true) →
      validate args url apiKey =
        (l1 ++ l2 ++ ["❌ - Wakatime API URL is unsecured HTTP"], none)) := by
  have hsch : schemeCheck url.scheme = (["❌ - Wakatime API URL is unsecured HTTP"], false) := by
    rw [hscheme]; rfl
  constructor
  · rcases h1 : classifyHost args url.hostStr with ⟨l1, h⟩
    cases h with
    | none => rw [validate_of_classify_none h1]
    | some host =>
      rcases h2 : pathCheck host url.path with ⟨l2, ok2⟩
      cases ok2 with
      | false => rw [validate_of_path_fail h1 h2]
      | true => rw [validate_of_scheme_fail h1 h2 hsch]
  · intro l1 host l2 h1 h2
    exact validate_of_scheme_fail h1 h2 hsch

/-- C1 counterexample: with scheme `http`, host `hackatime.hackclub.com`
and path `/api/v1`, the run fails with the path message, not the
insecure-scheme message. -/
theorem c1_counterexample :
    validate ⟨false, false, false⟩
        { scheme := "http", hostStr := some "hackatime.hackclub.com", path := "/api/v1" }
        "67e55044-10b1-426f-9247-bb680e5fe0c8" =
      (["✅ - Wakatime API host is Hackatime host",
        "❌ - Hackatime API path should be \"/api/hackatime/v1\", not \"/api/v1\""], none) ∧
    "❌ - Wakatime API URL is unsecured HTTP" ∉
      (validate ⟨false, false, false⟩
        { scheme := "http", hostStr := some "hackatime.hackclub.com", path := "/api/v1" }
        "67e55044-10b1-426f-9247-bb680e5fe0c8").1 := by
  decide

/-- C1 witness: the amended theorem at a concrete http URL that passes
classification and path validation. -/
theorem c1_witness :
    (validate ⟨false, false, false⟩
      { scheme := "http", hostStr := some "waka.hackclub.com", path := "/anything" } "k").2
        = none ∧
    validate ⟨false, false, false⟩
        { scheme := "http", hostStr := some "waka.hackclub.com", path := "/anything" } "k" =
      (["⚠️ - Wakatime API host is old Hackclub Wakatime host"] ++ [] ++
        ["❌ - Wakatime API URL is unsecured HTTP"], none) :=
  ⟨(c1_http_always_rejected ⟨false, false, false⟩
      { scheme := "http", hostStr := some "waka.hackclub.com", path := "/anything" } "k" rfl).1,
   (c1_http_always_rejected ⟨false, false, false⟩
      { scheme := "http", hostStr := some "waka.hackclub.com", path := "/anything" } "k" rfl).2
      ["⚠️ - Wakatime API host is old Hackclub Wakatime host"] .OldHackatime []
      (by decide) (by decide)⟩

/-- C2 (amended): for the PrimaryHost variant, key validation succeeds iff
the key is in one of the four shapes `Uuid::parse_str` accepts — the
canonical dashed 8-4-4-4-12 form, the undashed 32-hex-digit form, the
braced form, or the URN form — not only the canonical one. -/
theorem c2_hackatime_key_formats (k : String) :
    (keyCheck .Hackatime k).2 = true ↔
      SpecSimpleUuid k ∨ SpecCanonicalUuid k ∨ SpecBracedUuid k ∨ SpecUrnUuid k := by
  rw [← uuidParseOk_iff]
  by_cases hk : k = ""
  · subst hk; decide
  · simp only [keyCheck, if_neg hk, if_pos rfl]
    by_cases hu : uuidParseOk k = true
    · simp [hu]
    · simp [Bool.not_eq_true] at hu
      simp [hu]

/-- C2 counterexample: the undashed 32-hex-digit key is accepted for
PrimaryHost although it is not a canonical (dashed) UUID. -/
theorem c2_counterexample :
    (keyCheck .Hackatime "67e5504410b1426f9247bb680e5fe0c8").2 = true ∧
    ¬ SpecCanonicalUuid "67e5504410b1426f9247bb680e5fe0c8" := by
  refine ⟨by decide, ?_⟩
  rintro ⟨a, b, c, d, e, ha, hb, hc, hd, he, _, hdata⟩
  have h36 : ("67e5504410b1426f9247bb680e5fe0c8" : String).data.length = 36 := by
    rw [hdata]; simp [List.length_append, ha, hb, hc, hd, he]
  have h32 : ("67e5504410b1426f9247bb680e5fe0c8" : String).data.length = 32 := by decide
  rw [h32] at h36
  exact absurd h36 (by decide)

/-- C2 witness: a canonical dashed UUID key is accepted for PrimaryHost. -/
theorem c2_witness :
    (keyCheck .Hackatime "67e55044-10b1-426f-9247-bb680e5fe0c8").2 = true :=
  (c2_hackatime_key_formats "67e55044-10b1-426f-9247-bb680e5fe0c8").mpr
    (Or.inr (Or.inl ⟨"67e55044".data, "10b1".data, "426f".data, "9247".data,
      "bb680e5fe0c8".data, by decide, by decide, by decide, by decide, by decide,
      by decide, by decide⟩))

/-- C3: host classification is an exact, case-sensitive function of the
resolved URL's host string — the three named hosts map to their variants,
every other non-empty host maps to CustomHost, and classification aborts
exactly when there is no host (a `None` or empty host string). -/
theorem c3_host_classification (args : Args) :
    (classifyHost args (some "hackatime.hackclub.com")).2 = some WakaHost.Hackatime ∧
    (classifyHost args (some "waka.hackclub.com")).2 = some WakaHost.OldHackatime ∧
    (classifyHost args (some "api.wakatime.com")).2 = some WakaHost.Wakatime ∧
    (∀ h : String, h ≠ "" → h ≠ "hackatime.hackclub.com" → h ≠ "waka.hackclub.com" →
      h ≠ "api.wakatime.com" → (classifyHost args (some h)).2 = some WakaHost.Custom) ∧
    (∀ hs : Option String, (classifyHost args hs).2 = none ↔ hs.getD "" = "") := by
  refine ⟨by simp [classifyHost], by simp [classifyHost], by simp [classifyHost], ?_, ?_⟩
  · intro h h0 h1 h2 h3
    simp [classifyHost, h0, h1, h2, h3]
  · intro hs
    cases hs with
    | none => simp [classifyHost]
    | some s =>
      by_cases e1 : s = "hackatime.hackclub.com"
      · simp [classifyHost, e1]
      · by_cases e2 : s = "waka.hackclub.com"
        · simp [classifyHost, e1, e2]
        · by_cases e3 : s = "api.wakatime.com"
          · simp [classifyHost, e1, e2, e3]
          · by_cases e0 : s = ""
            · simp [classifyHost, e1, e2, e3, e0]
            · simp [classifyHost, e1, e2, e3, e0]

/-- C3 witness: an unrecognized non-empty host classifies as CustomHost. -/
theorem c3_witness :
    (classifyHost ⟨false, false, false⟩ (some "example.com")).2 = some WakaHost.Custom :=
  (c3_host_classification ⟨false, false, false⟩).2.2.2.1 "example.com"
    (by decide) (by decide) (by decide) (by decide)

/-- C4: path validation enforces exactly the per-variant table —
PrimaryHost requires `/api/hackatime/v1` (reporting actual vs expected on
mismatch), UpstreamHost requires `/api/v1`, LegacyPrimaryHost and
CustomHost always pass; `hackatime.hackclub.com` with `/api/v1` is
rejected and with `/api/hackatime/v1` accepted. -/
theorem c4_path_validation :
    (∀ p : String, (pathCheck .Hackatime p).2 = true ↔ p = "/api/hackatime/v1") ∧
    (∀ p : String, (pathCheck .Wakatime p).2 = true ↔ p = "/api/v1") ∧
    (∀ p : String, pathCheck .OldHackatime p = ([], true)) ∧
    (∀ p : String, pathCheck .Custom p = ([], true)) ∧
    (∀ p : String, p ≠ "/api/hackatime/v1" →
      pathCheck .Hackatime p =
        (["❌ - Hackatime API path should be \"/api/hackatime/v1\", not \"" ++ p ++ "\""],
         false)) ∧
    (∀ p : String, p ≠ "/api/v1" →
      pathCheck .Wakatime p =
        (["❌ - Wakatime API path should be \"/api/v1\", not \"" ++ p ++ "\""], false)) ∧
    (pathCheck .Hackatime "/api/v1").2 = false ∧
    (pathCheck .Hackatime "/api/hackatime/v1").2 = true ∧
    (∀ args : Args,
      (classifyHost args (some "hackatime.hackclub.com")).2 = some WakaHost.Hackatime) := by
  refine ⟨?_, ?_, fun p => rfl, fun p => rfl, ?_, ?_, by decide, by decide, ?_⟩
  · intro p
    by_cases hp : p = "/api/hackatime/v1" <;> simp [pathCheck, hp]
  · intro p
    by_cases hp : p = "/api/v1" <;> simp [pathCheck, hp]
  · intro p hp
    simp [pathCheck, hp]
  · intro p hp
    simp [pathCheck, hp]
  · intro args
    simp [classifyHost]

/-- C4 witness: the mismatch line for PrimaryHost on a concrete wrong
path. -/
theorem c4_witness :
    pathCheck .Hackatime "/api/v1" =
      (["❌ - Hackatime API path should be \"/api/hackatime/v1\", not \"/api/v1\""], false) :=
  c4_path_validation.2.2.2.2.1 "/api/v1" (by decide)

/-- C5: for the UpstreamHost variant with a non-empty key, validation
succeeds iff the key starts with `waka_` and the remainder (the prefix
stripped once, i.e. the first five characters dropped) parses as a UUID;
every failure prints the single generic invalid-format line. -/
theorem c5_wakatime_key (k : String) (hk : k ≠ "") :
    ((keyCheck .Wakatime k).2 = true ↔
      ("waka_".data.isPrefixOf k.data = true ∧ uuidParseOk ⟨k.data.drop 5⟩ = true)) ∧
    ((keyCheck .Wakatime k).2 = false →
      (keyCheck .Wakatime k).1 = ["❌ - Wakatime API key is NOT in valid format"]) := by
  by_cases hpre : "waka_".data.isPrefixOf k.data = true
  · have hrep := replaceFirst_waka k hpre
    simp only [keyCheck, if_neg hk, if_neg (by decide : ¬(WakaHost.Wakatime = WakaHost.Hackatime)),
      if_pos rfl, if_pos hpre, hrep]
    by_cases hu : uuidParseOk ⟨k.data.drop 5⟩ = true
    · simp [hu, hpre]
    · simp [Bool.not_eq_true] at hu
      simp [hu, hpre]
  · simp only [keyCheck, if_neg hk, if_neg (by decide : ¬(WakaHost.Wakatime = WakaHost.Hackatime)),
      if_pos rfl, if_neg hpre]
    simp [hpre]

/-- C5 witness: `waka_` + canonical UUID is accepted; `waka_not-a-uuid`
fails with the generic invalid-format line. -/
theorem c5_witness :
    (keyCheck .Wakatime "waka_67e55044-10b1-426f-9247-bb680e5fe0c8").2 = true ∧
    (keyCheck .Wakatime "waka_not-a-uuid").1 =
      ["❌ - Wakatime API key is NOT in valid format"] :=
  ⟨(c5_wakatime_key "waka_67e55044-10b1-426f-9247-bb680e5fe0c8" (by decide)).1.mpr
      ⟨by decide, by decide⟩,
   (c5_wakatime_key "waka_not-a-uuid" (by decide)).2 (by decide)⟩

/-- C6: an empty API-URL field resolves, with a non-fatal warning line, to
exactly the default `https://api.wakatime.com/api/v1`, whose host
classifies as the UpstreamHost variant. -/
theorem c6_default_url (parseUrl : String → Option Url) (args : Args) :
    resolveUrl parseUrl "" =
      (["⚠️ - Wakatime API URL is not specified - assuming default (https://api.wakatime.com/api/v1)"],
       some defaultUrl) ∧
    defaultUrl = { scheme := "https", hostStr := some "api.wakatime.com", path := "/api/v1" } ∧
    (classifyHost args defaultUrl.hostStr).2 = some WakaHost.Wakatime := by
  refine ⟨rfl, rfl, ?_⟩
  simp [classifyHost, defaultUrl]

/-- C7: an empty API key is fatal with the "no API key in file" line for
every endpoint variant, before any variant-specific format rule. -/
theorem c7_empty_key_fatal (host : WakaHost) :
    keyCheck host "" = (["❌ - No API key in file"], false) := by
  cases host <;> rfl

/-- C8: the final and probe success lines are built from the variant's
display name — `Hackatime` for PrimaryHost and LegacyPrimaryHost,
`Wakatime` for UpstreamHost and CustomHost. -/
theorem c8_success_lines :
    finalSuccessLine .Hackatime = "✅ - Hackatime is configured correctly!" ∧
    finalSuccessLine .OldHackatime = "✅ - Hackatime is configured correctly!" ∧
    finalSuccessLine .Wakatime = "✅ - Wakatime is configured correctly!" ∧
    finalSuccessLine .Custom = "✅ - Wakatime is configured correctly!" ∧
    probeSuccessLine .Hackatime
      = "✅ - Got successful status code! Hackatime is configured correctly." ∧
    probeSuccessLine .OldHackatime
      = "✅ - Got successful status code! Hackatime is configured correctly." ∧
    probeSuccessLine .Wakatime
      = "✅ - Got successful status code! Wakatime is configured correctly." ∧
    probeSuccessLine .Custom
      = "✅ - Got successful status code! Wakatime is configured correctly." ∧
    (∀ host : WakaHost,
      finalSuccessLine host = "✅ - " ++ displayWakaHost host ++ " is configured correctly!") := by
  refine ⟨rfl, rfl, rfl, rfl, rfl, rfl, rfl, rfl, fun host => rfl⟩

/-- C9: the probe target comes from relative-URL resolution of
`users/current/heartbeats` against the resolved URL, which replaces the
base path's last segment; for the default endpoint the heartbeat goes to
`/api/users/current/heartbeats`, not `/api/v1/users/current/heartbeats`. -/
theorem c9_probe_target :
    probeTarget defaultUrl =
      { scheme := "https", hostStr := some "api.wakatime.com",
        path := "/api/users/current/heartbeats" } ∧
    (probeTarget defaultUrl).path ≠ "/api/v1/users/current/heartbeats" ∧
    (∀ q seg rel : List Char, seg.all (fun c => c != '/') = true →
      mergeRelative ⟨q ++ '/' :: seg⟩ ⟨rel⟩ = ⟨q ++ '/' :: rel⟩) :=
  ⟨by decide, by decide, mergeRelative_replaces_last_segment⟩

/-- C9 witness: merging the default path `/api/v1` with the heartbeat
reference replaces the trailing `v1` segment. -/
theorem c9_witness :
    mergeRelative ⟨"/api".data ++ '/' :: "v1".data⟩ ⟨"users/current/heartbeats".data⟩
      = ⟨"/api".data ++ '/' :: "users/current/heartbeats".data⟩ :=
  c9_probe_target.2.2 "/api".data "v1".data "users/current/heartbeats".data (by decide)

/-- C10: a syntactically valid INI document with no `settings` section
fails config deserialization (the run aborts with the fatal parse line),
even though every key inside the section is individually optional with
empty/false defaults. -/
theorem c10_missing_settings_section :
    (∀ doc : IniDoc, List.lookup "settings" doc = none →
      deserializeWakaConfig doc = none ∧
      parseConfigStage doc = (["❌ - Cannot parse Wakatime config with error"], none)) ∧
    deserializeWakaSettings [] = some {} ∧
    deserializeWakaConfig [("settings", [])] = some ⟨{}⟩ := by
  refine ⟨?_, rfl, rfl⟩
  intro doc h
  have hd : deserializeWakaConfig doc = none := by
    simp [deserializeWakaConfig, h]
  exact ⟨hd, by simp [parseConfigStage, hd]⟩

/-- C10 witness: a document with only an unrelated section fails parsing. -/
theorem c10_witness :
    deserializeWakaConfig [("other", [("api_key", "x")])] = none ∧
    parseConfigStage [("other", [("api_key", "x")])]
      = (["❌ - Cannot parse Wakatime config with error"], none) :=
  c10_missing_settings_section.1 [("other", [("api_key", "x")])] (by decide)

end Wakadoctor
